import Mathlib

/-!
Verification development for the burrow tunnel client (Rust sources under
`client/src`).  The Rust code is shallowly embedded: byte strings become
`List Nat` with every element `< 256`, fallible operations return `Option`,
and the asynchronous dispatcher is modelled as a pure step function over an
explicit state, with the results of local I/O (the HTTP forwarder, local
WebSocket / TCP dials) supplied by an oracle argument.
-/

set_option maxRecDepth 4000

/-- A byte string: every element is an 8-bit value. -/
def Bytes (l : List Nat) : Prop := ∀ x ∈ l, x < 256

/-! ## Base64 (standard alphabet, padded)

Embedding of `base64::engine::general_purpose::STANDARD` as used by
`encode_body` / `decode_body` in `client/src/protocol/messages.rs`.
The decoder is strict, as the STANDARD engine is: canonical padding is
required, non-alphabet characters are rejected, and nonzero trailing bits
are rejected. -/

/-- ASCII code of the standard-alphabet character for a sextet. -/
def b64Char (n : Nat) : Nat :=
  if n < 26 then 65 + n
  else if n < 52 then 97 + (n - 26)
  else if n < 62 then 48 + (n - 52)
  else if n = 62 then 43
  else 47

/-- Sextet value of an ASCII code, `none` for non-alphabet characters
(including the padding character 61). -/
def b64Index (c : Nat) : Option Nat :=
  if 65 ≤ c ∧ c ≤ 90 then some (c - 65)
  else if 97 ≤ c ∧ c ≤ 122 then some (c - 97 + 26)
  else if 48 ≤ c ∧ c ≤ 57 then some (c - 48 + 52)
  else if c = 43 then some 62
  else if c = 47 then some 63
  else none

/-- Standard padded base64 encoding of a byte string (61 is the ASCII code
of the padding character). -/
def base64Encode : List Nat → List Nat
  | [] => []
  | [a] => [b64Char (a / 4), b64Char (a % 4 * 16), 61, 61]
  | [a, b] => [b64Char (a / 4), b64Char (a % 4 * 16 + b / 16), b64Char (b % 16 * 4), 61]
  | a :: b :: c :: rest =>
      b64Char (a / 4) :: b64Char (a % 4 * 16 + b / 16) ::
      b64Char (b % 16 * 4 + c / 64) :: b64Char (c % 64) :: base64Encode rest

/-- Strict base64 decoding: requires canonical padding, rejects non-alphabet
characters, padding in the middle, and nonzero trailing bits. -/
def base64Decode : List Nat → Option (List Nat)
  | [] => some []
  | c1 :: c2 :: c3 :: c4 :: rest =>
    match b64Index c1, b64Index c2 with
    | some s1, some s2 =>
      if c3 = 61 ∧ c4 = 61 ∧ rest = [] then
        if s2 % 16 = 0 then some [s1 * 4 + s2 / 16] else none
      else if c4 = 61 ∧ rest = [] then
        match b64Index c3 with
        | some s3 =>
            if s3 % 4 = 0 then some [s1 * 4 + s2 / 16, s2 % 16 * 16 + s3 / 4] else none
        | none => none
      else
        match b64Index c3, b64Index c4, base64Decode rest with
        | some s3, some s4, some tail =>
            some ((s1 * 4 + s2 / 16) :: (s2 % 16 * 16 + s3 / 4) ::
              (s3 % 4 * 64 + s4) :: tail)
        | _, _, _ => none
    | _, _ => none
  | _ => none

theorem b64Index_b64Char_bounded : ∀ n < 64, b64Index (b64Char n) = some n := by decide

theorem b64Index_b64Char {n : Nat} (h : n < 64) : b64Index (b64Char n) = some n :=
  b64Index_b64Char_bounded n h

theorem b64Char_ne_pad_bounded : ∀ n < 64, b64Char n ≠ 61 := by decide

theorem b64Char_ne_pad {n : Nat} (h : n < 64) : b64Char n ≠ 61 :=
  b64Char_ne_pad_bounded n h

/-- Decoding inverts encoding on byte strings. -/
theorem base64Decode_base64Encode : ∀ l, Bytes l → base64Decode (base64Encode l) = some l
  | [], _ => rfl
  | [a], h => by
    have ha : a < 256 := h a (by simp)
    have e1 : b64Index (b64Char (a / 4)) = some (a / 4) := b64Index_b64Char (by omega)
    have e2 : b64Index (b64Char (a % 4 * 16)) = some (a % 4 * 16) := b64Index_b64Char (by omega)
    have m1 : a % 4 * 16 % 16 = 0 := by omega
    have r1 : a / 4 * 4 + a % 4 * 16 / 16 = a := by omega
    simp [base64Encode, base64Decode, e1, e2, m1, r1]
    omega
  | [a, b], h => by
    have ha : a < 256 := h a (by simp)
    have hb : b < 256 := h b (by simp)
    have e1 : b64Index (b64Char (a / 4)) = some (a / 4) := b64Index_b64Char (by omega)
    have e2 : b64Index (b64Char (a % 4 * 16 + b / 16)) = some (a % 4 * 16 + b / 16) :=
      b64Index_b64Char (by omega)
    have e3 : b64Index (b64Char (b % 16 * 4)) = some (b % 16 * 4) :=
      b64Index_b64Char (by omega)
    have n3 : b64Char (b % 16 * 4) ≠ 61 := b64Char_ne_pad (by omega)
    have m1 : b % 16 * 4 % 4 = 0 := by omega
    have r1 : a / 4 * 4 + (a % 4 * 16 + b / 16) / 16 = a := by omega
    have r2 : (a % 4 * 16 + b / 16) % 16 * 16 + b % 16 * 4 / 4 = b := by omega
    simp [base64Encode, base64Decode, e1, e2, e3, n3, m1, r1, r2]
    omega
  | a :: b :: c :: rest, h => by
    have ha : a < 256 := h a (by simp)
    have hb : b < 256 := h b (by simp)
    have hc : c < 256 := h c (by simp)
    have ih := base64Decode_base64Encode rest
      (fun x hx => h x (List.mem_cons_of_mem a (List.mem_cons_of_mem b
        (List.mem_cons_of_mem c hx))))
    have e1 : b64Index (b64Char (a / 4)) = some (a / 4) := b64Index_b64Char (by omega)
    have e2 : b64Index (b64Char (a % 4 * 16 + b / 16)) = some (a % 4 * 16 + b / 16) :=
      b64Index_b64Char (by omega)
    have e3 : b64Index (b64Char (b % 16 * 4 + c / 64)) = some (b % 16 * 4 + c / 64) :=
      b64Index_b64Char (by omega)
    have e4 : b64Index (b64Char (c % 64)) = some (c % 64) := b64Index_b64Char (by omega)
    have n3 : b64Char (b % 16 * 4 + c / 64) ≠ 61 := b64Char_ne_pad (by omega)
    have n4 : b64Char (c % 64) ≠ 61 := b64Char_ne_pad (by omega)
    have r1 : a / 4 * 4 + (a % 4 * 16 + b / 16) / 16 = a := by omega
    have r2 : (a % 4 * 16 + b / 16) % 16 * 16 + (b % 16 * 4 + c / 64) / 4 = b := by omega
    have r3 : (b % 16 * 4 + c / 64) % 4 * 64 + c % 64 = c := by omega
    simp [base64Encode, base64Decode, e1, e2, e3, e4, n3, n4, ih, r1, r2, r3]

/-! ## UTF-8 validity

Embedding of the success condition of Rust `String::from_utf8` (the UTF-8
well-formedness table: continuation ranges, no overlong forms, no
surrogates, max U+10FFFF). -/

/-- UTF-8 validation automaton.  The state `(n, lo, hi)` expects `n` more
continuation bytes, the next one in the range `lo..hi` (after the first
continuation byte of a sequence the range is always `128..191`).  The
transitions out of the start state `(0, _, _)` are the first-byte dispatch
table of Rust UTF-8 validation: one byte `00..7F`; two bytes `C2..DF`;
three bytes `E0` (second byte `A0..BF`), `E1..EC`, `ED` (second byte
`80..9F`, excluding surrogates), `EE..EF`; four bytes `F0` (second byte
`90..BF`), `F1..F3`, `F4` (second byte `80..8F`, max U+10FFFF). -/
def utf8Machine : Nat → Nat → Nat → List Nat → Bool
  | 0, _, _, [] => true
  | 0, _, _, b :: rest =>
    if b ≤ 127 then utf8Machine 0 0 0 rest
    else if 194 ≤ b && b ≤ 223 then utf8Machine 1 128 191 rest
    else if b = 224 then utf8Machine 2 160 191 rest
    else if 225 ≤ b && b ≤ 236 then utf8Machine 2 128 191 rest
    else if b = 237 then utf8Machine 2 128 159 rest
    else if 238 ≤ b && b ≤ 239 then utf8Machine 2 128 191 rest
    else if b = 240 then utf8Machine 3 144 191 rest
    else if 241 ≤ b && b ≤ 243 then utf8Machine 3 128 191 rest
    else if b = 244 then utf8Machine 3 128 143 rest
    else false
  | _ + 1, _, _, [] => false
  | n + 1, lo, hi, b :: rest =>
    if lo ≤ b && b ≤ hi then utf8Machine n 128 191 rest else false

/-- UTF-8 well-formedness of a byte string: the success condition of Rust
`String::from_utf8`. -/
def isValidUtf8 (l : List Nat) : Bool := utf8Machine 0 0 0 l

/-- Prepending an ASCII byte preserves UTF-8 validity. -/
theorem isValidUtf8_ascii_cons {c : Nat} {l : List Nat} (hc : c ≤ 127)
    (hl : isValidUtf8 l = true) : isValidUtf8 (c :: l) = true := by
  unfold isValidUtf8 at hl ⊢
  rw [utf8Machine, if_pos hc]
  exact hl

/-- Prepending an all-ASCII prefix preserves UTF-8 validity. -/
theorem isValidUtf8_ascii_append {p l : List Nat} (hp : ∀ c ∈ p, c ≤ 127)
    (hl : isValidUtf8 l = true) : isValidUtf8 (p ++ l) = true := by
  induction p with
  | nil => rw [List.nil_append]; exact hl
  | cons c p ih =>
    have hc : c ≤ 127 := hp c (by simp)
    have hrest := ih (fun x hx => hp x (by simp [hx]))
    rw [List.cons_append]
    exact isValidUtf8_ascii_cons hc hrest

/-! ## Body encoding (`client/src/protocol/messages.rs`)

`encode_body` / `decode_body`.  Wire strings are modelled by their UTF-8
byte lists; the encoding tag stays a Lean `String`. -/

/-- Embedding of `encode_body` (messages.rs lines 213–232): absent stays
absent; empty becomes the empty string, untagged; valid UTF-8 is emitted
verbatim, untagged; anything else is base64-encoded and tagged. -/
def encode_body (body : Option (List Nat)) : Option (List Nat) × Option String :=
  match body with
  | none => (none, none)
  | some data =>
    if data = [] then (some [], none)
    else if isValidUtf8 data then (some data, none)
    else (some (base64Encode data), some "base64")

/-- Embedding of `decode_body` (messages.rs lines 234–243): tag
base64 means strict base64 decoding (failure drops the body); any other
tag or no tag yields the raw bytes of the string. -/
def decode_body (body : Option (List Nat)) (encoding : Option String) : Option (List Nat) :=
  match body with
  | none => none
  | some s =>
    match encoding with
    | some e => if e = "base64" then base64Decode s else some s
    | none => some s

/-! ## Protocol messages (`client/src/protocol/messages.rs`)

Identifier newtypes (`protocol/ids.rs`) are `serde(transparent)` wrappers
around `String` and are modelled as plain strings.  Wire byte payloads
(`data`, `body`) are modelled as UTF-8 byte lists, like above. -/

/-- Minimal JSON model, enough to state what serde emits. -/
inductive Json where
  | str (s : String)
  | num (n : Nat)
  | arr (xs : List Json)
  | obj (fields : List (String × Json))

/-- Attestation for client authentication (messages.rs lines 3–11). -/
structure Attestation where
  public_key : String
  requested_subdomain : Option String
  timestamp : Nat
  signature : String
deriving DecidableEq

/-- Serde serialization of `Attestation`: fields in declaration order, with
`requested_subdomain` skipped when `None`. -/
def attestationJson (a : Attestation) : Json :=
  Json.obj ([("public_key", Json.str a.public_key)] ++
    (match a.requested_subdomain with
     | some s => [("requested_subdomain", Json.str s)]
     | none => []) ++
    [("timestamp", Json.num a.timestamp), ("signature", Json.str a.signature)])

/-- Serde serialization of `OutgoingMessage::RegisterTunnel` (messages.rs
lines 14–22): internally tagged with tag field `type`, then the variant
fields in declaration order. -/
def registerTunnelJson (attestation : Attestation) (local_host : String)
    (local_port : Nat) : Json :=
  Json.obj [("type", Json.str "register_tunnel"),
    ("attestation", attestationJson attestation),
    ("local_host", Json.str local_host),
    ("local_port", Json.num local_port)]

/-- The field names of a serialized JSON object. -/
def jsonFieldNames : Json → List String
  | Json.obj fields => fields.map Prod.fst
  | _ => []

/-- Outgoing message types, client to server (messages.rs lines 13–66). -/
inductive OutgoingMessage where
  | registerTunnel (attestation : Attestation) (local_host : String) (local_port : Nat)
  | tunnelResponse (request_id : String) (status : Nat)
      (headers : List (String × String)) (body : Option (List Nat))
      (body_encoding : Option String)
  | wsUpgraded (ws_id : String) (headers : List (String × String))
  | wsFrame (ws_id : String) (opcode : String) (data : List Nat)
      (data_encoding : Option String)
  | wsClose (ws_id : String) (code : Nat) (reason : String)
  | registerTcpTunnel (local_port : Nat)
  | tcpConnected (tcp_id : String)
  | tcpData (tcp_id : String) (data : List Nat) (data_encoding : String)
  | tcpClose (tcp_id : String) (reason : String)
  | heartbeat (timestamp : Nat)
deriving DecidableEq

/-- Embedding of `OutgoingMessage::tunnel_response` (messages.rs lines
151–165): applies `encode_body` to the body and stores the resulting
string and encoding tag. -/
def tunnel_response (request_id : String) (status : Nat)
    (headers : List (String × String)) (body : Option (List Nat)) : OutgoingMessage :=
  let enc := encode_body body
  OutgoingMessage.tunnelResponse request_id status headers enc.1 enc.2

/-- Embedding of `OutgoingMessage::tcp_data` (messages.rs lines 177–183). -/
def tcp_data (tcp_id : String) (data : List Nat) : OutgoingMessage :=
  OutgoingMessage.tcpData tcp_id (base64Encode data) "base64"

/-- Embedding of `OutgoingMessage::tcp_close` (messages.rs lines 185–190). -/
def tcp_close (tcp_id : String) (reason : String) : OutgoingMessage :=
  OutgoingMessage.tcpClose tcp_id reason

/-- Embedding of `OutgoingMessage::tcp_connected` (messages.rs lines 171–175). -/
def tcp_connected (tcp_id : String) : OutgoingMessage :=
  OutgoingMessage.tcpConnected tcp_id

/-- The request id carried by a `tunnel_response`, `none` for any other
outgoing message. -/
def requestIdOf : OutgoingMessage → Option String
  | OutgoingMessage.tunnelResponse request_id _ _ _ _ => some request_id
  | _ => none

/-- Whether an outgoing message is a `tunnel_response` frame. -/
def isTunnelResponse : OutgoingMessage → Bool
  | OutgoingMessage.tunnelResponse _ _ _ _ _ => true
  | _ => false

/-- Incoming message types, server to client (messages.rs lines 68–140).
Fields marked `serde(default)` in the source are `Option`s here. -/
inductive IncomingMessage where
  | tunnelRegistered (tunnel_id subdomain full_url : String)
  | tunnelRequest (request_id tunnel_id method path query_string : String)
      (headers : List (List String)) (body : Option (List Nat))
      (body_encoding : Option String) (client_ip : Option String)
  | wsUpgrade (ws_id tunnel_id path : String) (headers : List (List String))
  | wsFrame (ws_id opcode : String) (data : List Nat) (data_encoding : Option String)
  | wsClose (ws_id : String) (code : Option Nat) (reason : Option String)
  | tcpTunnelRegistered (tcp_tunnel_id : String) (server_port local_port : Nat)
  | tcpConnect (tcp_id tcp_tunnel_id : String)
  | tcpData (tcp_id : String) (data : List Nat) (data_encoding : Option String)
  | tcpClose (tcp_id : String) (reason : Option String)
  | heartbeat (timestamp : Nat)
  | error (code message : String)
deriving DecidableEq

/-- The request id of an incoming `tunnel_request`, `none` otherwise. -/
def incomingRequestId : IncomingMessage → Option String
  | IncomingMessage.tunnelRequest request_id _ _ _ _ _ _ _ _ => some request_id
  | _ => none

/-! ## Client state (`client/src/client/connection.rs` lines 30–109)

`HashMap`s are modelled as association lists with insert-replaces
semantics; only membership/lookup is ever used by the code. -/

/-- Information about a registered tunnel (connection.rs lines 42–50). -/
structure TunnelInfo where
  full_url : String
  local_host : String
  local_port : Nat
deriving DecidableEq

/-- Information about a registered TCP tunnel (connection.rs lines 52–58). -/
structure TcpTunnelInfo where
  server_port : Nat
  local_port : Nat
deriving DecidableEq

/-- Pending tunnel registration (connection.rs lines 60–64). -/
structure PendingTunnel where
  local_host : String
  local_port : Nat
deriving DecidableEq

/-- Lookup in an association-list map. -/
def alistLookup {β : Type} (m : List (String × β)) (k : String) : Option β :=
  (m.find? (fun p => p.1 == k)).map Prod.snd

/-- Insert-or-replace in an association-list map (`HashMap::insert`). -/
def alistInsert {β : Type} (m : List (String × β)) (k : String) (v : β) :
    List (String × β) :=
  (k, v) :: m.filter (fun p => p.1 ≠ k)

/-- Shared state for the tunnel client (connection.rs lines 71–87).  The
`ws_proxies` and `tcp_connections` maps carry no data relevant to the
dispatcher beyond membership (the proxy handles are channels), so they are
modelled by their key sets. -/
structure ClientState where
  tunnels : List (String × TunnelInfo)
  pending_tunnels : List PendingTunnel
  tcp_tunnels : List (String × TcpTunnelInfo)
  pending_tcp_tunnels : List Nat
  tcp_connections : List String
  ws_proxies : List String
  local_host : String
deriving DecidableEq

/-- `ClientState::find_tunnel_port` (connection.rs lines 102–104). -/
def find_tunnel_port (st : ClientState) (tunnel_id : String) : Option Nat :=
  (alistLookup st.tunnels tunnel_id).map TunnelInfo.local_port

/-- `ClientState::find_tcp_tunnel` (connection.rs lines 106–108). -/
def find_tcp_tunnel (st : ClientState) (tcp_tunnel_id : String) : Option TcpTunnelInfo :=
  alistLookup st.tcp_tunnels tcp_tunnel_id

/-! ## WebSocket proxy close (`client/src/client/ws_proxy.rs` lines 111–120)

`WebSocketProxy::close(&self, _code: u16, _reason: &str)` sends the command
`("close", vec![])` into the proxy's to-local channel; the to-local task
(ws_proxy.rs line 76) maps the opcode `close` to a local close frame with
no payload.  The `_code`/`_reason` parameters are unused in the source. -/

/-- The `(opcode, data)` command `WebSocketProxy::close` enqueues toward the
local socket, as a function of the code and reason it was called with. -/
def wsProxyClose (_code : Nat) (_reason : String) : String × List Nat :=
  ("close", [])

/-! ## Dispatcher (`handle_message`, connection.rs lines 511–917)

Each inbound frame is handled by a pure step: the state update, the
outgoing frames enqueued toward the writer queue (including those the
spawned per-request task enqueues when it completes), and the side effects
requested on local connections.  Results of local I/O are supplied by an
oracle. -/

/-- Local I/O effects requested by the dispatcher. -/
inductive Effect where
  | forwardHttp (host : String) (port : Nat) (method path query_string : String)
      (headers : List (String × String)) (body : Option (List Nat))
  | wsConnect (host : String) (port : Nat) (path : String) (headers : List (List String))
  | wsSendLocal (ws_id opcode : String) (data : List Nat)
  | closeProxy (ws_id : String) (code : Nat) (reason : String)
  | tcpDial (tcp_id : String) (port : Nat)
  | tcpSendLocal (tcp_id : String) (data : List Nat)
deriving DecidableEq

/-- Results of the local I/O a `handle_message` call performs, supplied as
an oracle: the HTTP forwarder result (status, headers, body — or an error
whose display bytes are given), the local WebSocket dial, the local TCP
dial. -/
structure Oracle where
  http : Except (List Nat) (Nat × List (String × String) × Option (List Nat))
  ws : Except String Unit
  tcp : Except String Unit

/-- Result of dispatching one inbound frame. -/
structure DispatchResult where
  state : ClientState
  tunnels_registered : Nat
  tcp_tunnels_registered : Nat
  outgoing : List OutgoingMessage
  effects : List Effect

/-- Header conversion in the `tunnel_request` branch (connection.rs lines
618–627): keep the first two entries of rows with at least two entries. -/
def headersToPairs (headers : List (List String)) : List (String × String) :=
  headers.filterMap (fun h => match h with
    | k :: v :: _ => some (k, v)
    | _ => none)

/-- UTF-8 bytes of the literal prefix produced by the Bad Gateway
formatting in connection.rs lines 709–714. -/
def badGatewayBytes : List Nat :=
  [66, 97, 100, 32, 71, 97, 116, 101, 119, 97, 121, 58, 32]

/-- The single `tunnel_response` the spawned request task builds from the
forwarder result (connection.rs lines 665–716): on success the forwarded
status/headers/body, on error a 502 with a text/plain Bad Gateway body. -/
def tunnelRequestResponse (request_id : String)
    (result : Except (List Nat) (Nat × List (String × String) × Option (List Nat))) :
    OutgoingMessage :=
  match result with
  | Except.ok (status, headers, body) => tunnel_response request_id status headers body
  | Except.error e =>
      tunnel_response request_id 502 [("content-type", "text/plain")]
        (some (badGatewayBytes ++ e))

/-- Embedding of `handle_message` (connection.rs lines 511–917), one step
of the dispatcher.  `tunnels_registered` / `tcp_tunnels_registered` are the
reader task's confirmation counters.  TUI events are not modelled. -/
def handleMessage (st : ClientState) (tunnels_registered tcp_tunnels_registered : Nat)
    (oracle : Oracle) : IncomingMessage → DispatchResult
  | IncomingMessage.tunnelRegistered tunnel_id _subdomain full_url =>
    let hp := match st.pending_tunnels.get? tunnels_registered with
      | some p => (p.local_host, p.local_port)
      | none => (st.local_host, 0)
    let info : TunnelInfo := ⟨full_url, hp.1, hp.2⟩
    { state := { st with tunnels := alistInsert st.tunnels tunnel_id info },
      tunnels_registered := tunnels_registered + 1,
      tcp_tunnels_registered := tcp_tunnels_registered,
      outgoing := [], effects := [] }
  | IncomingMessage.tcpTunnelRegistered tcp_tunnel_id server_port local_port =>
    let info : TcpTunnelInfo := ⟨server_port, local_port⟩
    { state := { st with tcp_tunnels := alistInsert st.tcp_tunnels tcp_tunnel_id info },
      tunnels_registered := tunnels_registered,
      tcp_tunnels_registered := tcp_tunnels_registered + 1,
      outgoing := [], effects := [] }
  | IncomingMessage.tunnelRequest request_id tunnel_id method path query_string
      headers body body_encoding _client_ip =>
    let local_port := (find_tunnel_port st tunnel_id).getD 3000
    let body_data := decode_body body body_encoding
    let hdrs := headersToPairs headers
    { state := st,
      tunnels_registered := tunnels_registered,
      tcp_tunnels_registered := tcp_tunnels_registered,
      outgoing := [tunnelRequestResponse request_id oracle.http],
      effects := [Effect.forwardHttp st.local_host local_port method path
        query_string hdrs body_data] }
  | IncomingMessage.wsUpgrade ws_id tunnel_id path headers =>
    let local_port := (find_tunnel_port st tunnel_id).getD 3000
    match oracle.ws with
    | Except.ok _ =>
      { state := { st with ws_proxies := ws_id :: st.ws_proxies.filter (fun w => w ≠ ws_id) },
        tunnels_registered := tunnels_registered,
        tcp_tunnels_registered := tcp_tunnels_registered,
        outgoing := [OutgoingMessage.wsUpgraded ws_id []],
        effects := [Effect.wsConnect st.local_host local_port path headers] }
    | Except.error e =>
      { state := st,
        tunnels_registered := tunnels_registered,
        tcp_tunnels_registered := tcp_tunnels_registered,
        outgoing := [OutgoingMessage.wsClose ws_id 1011 ("Local connection failed: " ++ e)],
        effects := [Effect.wsConnect st.local_host local_port path headers] }
  | IncomingMessage.wsFrame ws_id opcode data data_encoding =>
    if ws_id ∈ st.ws_proxies then
      let decoded := if data_encoding = some "base64" then (base64Decode data).getD data
        else data
      { state := st,
        tunnels_registered := tunnels_registered,
        tcp_tunnels_registered := tcp_tunnels_registered,
        outgoing := [], effects := [Effect.wsSendLocal ws_id opcode decoded] }
    else
      { state := st,
        tunnels_registered := tunnels_registered,
        tcp_tunnels_registered := tcp_tunnels_registered,
        outgoing := [], effects := [] }
  | IncomingMessage.wsClose ws_id code reason =>
    if ws_id ∈ st.ws_proxies then
      { state := { st with ws_proxies := st.ws_proxies.erase ws_id },
        tunnels_registered := tunnels_registered,
        tcp_tunnels_registered := tcp_tunnels_registered,
        outgoing := [],
        effects := [Effect.closeProxy ws_id (code.getD 1000) (reason.getD "")] }
    else
      { state := st,
        tunnels_registered := tunnels_registered,
        tcp_tunnels_registered := tcp_tunnels_registered,
        outgoing := [], effects := [] }
  | IncomingMessage.tcpConnect tcp_id tcp_tunnel_id =>
    match find_tcp_tunnel st tcp_tunnel_id with
    | some info =>
      match oracle.tcp with
      | Except.ok _ =>
        { state := { st with tcp_connections :=
            tcp_id :: st.tcp_connections.filter (fun t => t ≠ tcp_id) },
          tunnels_registered := tunnels_registered,
          tcp_tunnels_registered := tcp_tunnels_registered,
          outgoing := [tcp_connected tcp_id],
          effects := [Effect.tcpDial tcp_id info.local_port] }
      | Except.error e =>
        { state := st,
          tunnels_registered := tunnels_registered,
          tcp_tunnels_registered := tcp_tunnels_registered,
          outgoing := [tcp_close tcp_id ("Connection failed: " ++ e)],
          effects := [Effect.tcpDial tcp_id info.local_port] }
    | none =>
      { state := st,
        tunnels_registered := tunnels_registered,
        tcp_tunnels_registered := tcp_tunnels_registered,
        outgoing := [], effects := [] }
  | IncomingMessage.tcpData tcp_id data data_encoding =>
    if tcp_id ∈ st.tcp_connections then
      let decoded := if data_encoding = some "base64" then (base64Decode data).getD []
        else data
      { state := st,
        tunnels_registered := tunnels_registered,
        tcp_tunnels_registered := tcp_tunnels_registered,
        outgoing := [], effects := [Effect.tcpSendLocal tcp_id decoded] }
    else
      { state := st,
        tunnels_registered := tunnels_registered,
        tcp_tunnels_registered := tcp_tunnels_registered,
        outgoing := [], effects := [] }
  | IncomingMessage.tcpClose tcp_id _reason =>
    { state := { st with tcp_connections := st.tcp_connections.erase tcp_id },
      tunnels_registered := tunnels_registered,
      tcp_tunnels_registered := tcp_tunnels_registered,
      outgoing := [], effects := [] }
  | IncomingMessage.heartbeat _ =>
    { state := st,
      tunnels_registered := tunnels_registered,
      tcp_tunnels_registered := tcp_tunnels_registered,
      outgoing := [], effects := [] }
  | IncomingMessage.error _ _ =>
    { state := st,
      tunnels_registered := tunnels_registered,
      tcp_tunnels_registered := tcp_tunnels_registered,
      outgoing := [], effects := [] }

/-! ## Connection supervisor (`TunnelClient::run`, connection.rs lines 143–211)

The loop is driven by the result of each `connect_and_run_once` call.  An
attempt is scripted as `ok` (clean shutdown: the call returned `Ok(())`)
or `err established reason` (the call returned `Err`); `established`
records whether a connection was established during the attempt before it
failed — `run` never observes this flag, it only sees the `Result`.

`backoff_ms` is a `u64` below 60000 throughout, so the float update
`((backoff_ms as f64) * 1.5) as u64` is exact and truncating: it equals
`3 * b / 2` in natural-number arithmetic. -/

/-- connection.rs line 14. -/
def MAX_RECONNECT_ATTEMPTS : Nat := 10

/-- connection.rs line 15. -/
def INITIAL_BACKOFF_MS : Nat := 1000

/-- connection.rs line 16. -/
def MAX_BACKOFF_MS : Nat := 60000

/-- One backoff update (connection.rs lines 204–205): multiply by 1.5,
truncate, cap at `MAX_BACKOFF_MS`. -/
def nextBackoff (b : Nat) : Nat := min (3 * b / 2) MAX_BACKOFF_MS

/-- The pure backoff sequence: value slept before reconnect attempt
`k + 2` (index 0 is the sleep after the first failed attempt). -/
def backoffs : Nat → Nat
  | 0 => INITIAL_BACKOFF_MS
  | n + 1 => nextBackoff (backoffs n)

/-- `ConnectionStatus` (tui/events.rs lines 66–77). -/
inductive ConnectionStatus where
  | connecting
  | connected
  | reconnecting (attempt : Nat) (reason : String) (next_retry_secs : Nat)
  | disconnected (reason : String)
deriving DecidableEq

/-- Scripted result of one `connect_and_run_once` call. -/
inductive AttemptResult where
  | ok
  | err (established : Bool) (reason : String)
deriving DecidableEq

/-- Observable outcome of `run`: the `ConnectionStatus` events it emits,
the sleeps it performs (in ms), and its return value — `none` while the
scripted attempts are exhausted without `run` having returned. -/
structure RunOutput where
  statuses : List ConnectionStatus
  sleeps : List Nat
  result : Option (Except String Unit)

/-- One iteration per scripted attempt, mirroring the loop body of `run`
(connection.rs lines 147–207): emit Connecting or Reconnecting, then on
`Ok` emit Disconnected and stop; on `Err` either fail permanently at
`MAX_RECONNECT_ATTEMPTS` or emit Reconnecting, sleep `backoff`, and
continue with the updated backoff. -/
def runAux (attempt backoff : Nat) (lastError : Option String) :
    List AttemptResult → RunOutput
  | [] => ⟨[], [], none⟩
  | r :: rest =>
    let attempt1 := attempt + 1
    let preStatus := if attempt1 = 1 then ConnectionStatus.connecting
      else ConnectionStatus.reconnecting attempt1 (lastError.getD "") 0
    match r with
    | AttemptResult.ok =>
      ⟨[preStatus, ConnectionStatus.disconnected "Connection closed"], [],
        some (Except.ok ())⟩
    | AttemptResult.err _ reason =>
      if attempt1 ≥ MAX_RECONNECT_ATTEMPTS then
        ⟨[preStatus, ConnectionStatus.disconnected
            ("Failed after " ++ toString attempt1 ++ " attempts: " ++ reason)], [],
          some (Except.error reason)⟩
      else
        let tailOut := runAux attempt1 (nextBackoff backoff) (some reason) rest
        ⟨preStatus ::
            ConnectionStatus.reconnecting attempt1 reason (backoff / 1000) ::
            tailOut.statuses,
          backoff :: tailOut.sleeps, tailOut.result⟩

/-- `TunnelClient::run` on a script of attempt results: `attempt = 0`,
`backoff_ms = INITIAL_BACKOFF_MS`, no previous error. -/
def runModel (results : List AttemptResult) : RunOutput :=
  runAux 0 INITIAL_BACKOFF_MS none results

/-! ## HTTP forwarder headers (`client/src/client/http_proxy.rs`)

`forward_http_request` builds the outbound header map by skipping
hop-by-hop headers (plus `host`) on the lowercased name and inserting the
survivors through `HeaderName::from_str` / `HeaderValue::from_str` (invalid
ones skipped silently; `HeaderName` lowercases; `HeaderMap::insert`
replaces an existing entry with the same name).  Response headers are
filtered by the same hop-by-hop check and by `HeaderValue::to_str`
succeeding.  Header names that pass validation are ASCII, where Rust
`str::to_lowercase` is exactly ASCII lowercasing. -/

/-- ASCII lowercasing of one character. -/
def asciiLowerChar (c : Char) : Char :=
  if 65 ≤ c.toNat ∧ c.toNat ≤ 90 then Char.ofNat (c.toNat + 32) else c

/-- ASCII lowercasing of a string (`str::to_lowercase` on header names). -/
def lowerAscii (s : String) : String := String.mk (s.data.map asciiLowerChar)

/-- The eight hop-by-hop header names stripped in both directions
(http_proxy.rs lines 53–64 and 94–104). -/
def hopHeaders : List String :=
  ["connection", "keep-alive", "proxy-authenticate", "proxy-authorization",
   "te", "trailers", "transfer-encoding", "upgrade"]

/-- The request-side skip set: hop-by-hop plus `host` (http_proxy.rs
lines 53–66). -/
def requestSkipHeaders : List String := hopHeaders ++ ["host"]

/-- Whether a request header is skipped (checked on the lowercased name). -/
def requestSkip (name : String) : Bool := requestSkipHeaders.contains (lowerAscii name)

/-- Whether a response header is skipped (checked on the lowercased name). -/
def responseSkip (name : String) : Bool := hopHeaders.contains (lowerAscii name)

/-- An HTTP token character: what `HeaderName::from_str` accepts. -/
def isTchar (c : Char) : Bool :=
  c.isAlphanum || c = '!' || c = '#' || c = '$' || c = '%' || c = '&' ||
  c = '\'' || c = '*' || c = '+' || c = '-' || c = '.' || c = '^' ||
  c = '_' || c = Char.ofNat 96 || c = '|' || c = '~'

/-- Success condition of `HeaderName::from_str`: a nonempty token.  The
resulting name is the ASCII-lowercased input. -/
def validHeaderName (s : String) : Bool := s ≠ "" && s.toList.all isTchar

/-- Success condition of `HeaderValue::from_str`: no control characters
other than horizontal tab. -/
def validHeaderValue (s : String) : Bool :=
  s.toList.all (fun c => c = '\t' || (32 ≤ c.toNat && c.toNat ≠ 127))

/-- Success condition of `HeaderValue::to_str`: visible ASCII or tab. -/
def visibleAsciiValue (s : String) : Bool :=
  s.toList.all (fun c => c = '\t' || (32 ≤ c.toNat && c.toNat < 127))

/-- `HeaderMap::insert`: replace the entry with the same name, or append. -/
def headerMapInsert (m : List (String × String)) (k v : String) :
    List (String × String) :=
  if m.any (fun p => p.1 == k) then
    m.map (fun p => if p.1 == k then (k, v) else p)
  else m ++ [(k, v)]

/-- The request-header loop of `forward_http_request` (http_proxy.rs lines
48–73): skip the hop-by-hop/`host` set on the lowercased name, then insert
survivors that parse as a header name and value (the parsed name is
lowercased). -/
def requestHeaderMapAux (m : List (String × String)) :
    List (String × String) → List (String × String)
  | [] => m
  | (name, value) :: rest =>
    if requestSkip name then requestHeaderMapAux m rest
    else if validHeaderName name && validHeaderValue value then
      requestHeaderMapAux (headerMapInsert m (lowerAscii name) value) rest
    else requestHeaderMapAux m rest

/-- The header map sent to the local origin. -/
def buildRequestHeaderMap (headers : List (String × String)) : List (String × String) :=
  requestHeaderMapAux [] headers

/-- The response-header `filter_map` of `forward_http_request`
(http_proxy.rs lines 87–113): skip hop-by-hop on the lowercased name, keep
a surviving pair when its value is visible ASCII. -/
def responseHeaderFilter (headers : List (String × String)) : List (String × String) :=
  headers.filterMap (fun p =>
    if responseSkip p.1 then none
    else if visibleAsciiValue p.2 then some (p.1, p.2) else none)

/-! ## Claims -/

/-- C1: Body round-trip: for every body payload (absent, empty, valid
UTF-8, or arbitrary binary bytes), `decode_body` applied to the
(string, encoding-tag) pair produced by `encode_body` recovers exactly the
original payload; in particular UTF-8 payloads are emitted verbatim with
no encoding tag, other payloads as standard padded base64 tagged
base64, empty payloads as the empty string with no tag, and absent
payloads as an omitted field. -/
theorem c1_body_roundtrip (body : Option (List Nat))
    (h : ∀ l, body = some l → Bytes l) :
    decode_body (encode_body body).1 (encode_body body).2 = body ∧
    encode_body none = (none, none) ∧
    encode_body (some []) = (some [], none) ∧
    (∀ l, l ≠ [] → isValidUtf8 l = true → encode_body (some l) = (some l, none)) ∧
    (∀ l, l ≠ [] → isValidUtf8 l = false →
      encode_body (some l) = (some (base64Encode l), some "base64")) := by
  refine ⟨?_, rfl, by simp [encode_body], ?_, ?_⟩
  · cases body with
    | none => rfl
    | some data =>
      by_cases hd : data = []
      · subst hd
        simp [encode_body, decode_body]
      · by_cases hu : isValidUtf8 data
        · simp [encode_body, decode_body, hd, hu]
        · simp [encode_body, decode_body, hd, hu,
            base64Decode_base64Encode data (h data rfl)]
  · intro l hne hu
    simp [encode_body, hne, hu]
  · intro l hne hu
    simp [encode_body, hne, hu]

/-- C1 witness: a concrete binary (non-UTF-8) payload round-trips. -/
theorem c1_body_roundtrip_witness :
    decode_body (encode_body (some [0, 255, 7])).1 (encode_body (some [0, 255, 7])).2 =
      some [0, 255, 7] :=
  (c1_body_roundtrip (some [0, 255, 7])
    (fun l hl => by injection hl with h2; rw [← h2]; unfold Bytes; decide)).1

/-- C2: the claim states every serialized `register_tunnel` frame has
fields `token`, `local_host`, `local_port` (plus `requested_subdomain`
when requested) and no attestation.  `messages.rs` as given serializes
`RegisterTunnel` with an `attestation` object and no `token` field: the
frame for a concrete attestation has field names
`type, attestation, local_host, local_port`, contains `attestation`, and
contains neither `token` nor a top-level `requested_subdomain`. -/
theorem c2_register_tunnel_serialization :
    jsonFieldNames (registerTunnelJson ⟨"pk", some "sub", 1234, "sig"⟩ "localhost" 8080) =
      ["type", "attestation", "local_host", "local_port"] ∧
    "attestation" ∈ jsonFieldNames
      (registerTunnelJson ⟨"pk", some "sub", 1234, "sig"⟩ "localhost" 8080) ∧
    "token" ∉ jsonFieldNames
      (registerTunnelJson ⟨"pk", some "sub", 1234, "sig"⟩ "localhost" 8080) ∧
    "requested_subdomain" ∉ jsonFieldNames
      (registerTunnelJson ⟨"pk", some "sub", 1234, "sig"⟩ "localhost" 8080) := by
  refine ⟨rfl, by decide, by decide, by decide⟩

/-- C4: whenever the HTTP forwarder returns an error for a
`tunnel_request`, the dispatcher enqueues exactly one `tunnel_response`
with the same `request_id`, status 502, headers
`[(content-type, text/plain)]`, and body the UTF-8 text
`Bad Gateway: ` followed by the error display (emitted verbatim, no
encoding tag).  The hypothesis `isValidUtf8 e` holds for any error
display, which is a Rust `String`. -/
theorem c4_bad_gateway_response (st : ClientState) (reg tcpReg : Nat)
    (ws : Except String Unit) (tcp : Except String Unit) (e : List Nat)
    (request_id tunnel_id method path query_string : String)
    (headers : List (List String)) (body : Option (List Nat))
    (body_encoding : Option String) (client_ip : Option String)
    (he : isValidUtf8 e = true) :
    (handleMessage st reg tcpReg ⟨Except.error e, ws, tcp⟩
      (IncomingMessage.tunnelRequest request_id tunnel_id method path query_string
        headers body body_encoding client_ip)).outgoing =
      [OutgoingMessage.tunnelResponse request_id 502
        [("content-type", "text/plain")] (some (badGatewayBytes ++ e)) none] := by
  have hval : isValidUtf8 (badGatewayBytes ++ e) = true :=
    isValidUtf8_ascii_append (by decide) he
  have hne : badGatewayBytes ++ e ≠ [] := by simp [badGatewayBytes]
  simp [handleMessage, tunnelRequestResponse, tunnel_response, encode_body, hne, hval]

/-- C4 witness: concrete error display bytes `boom`. -/
theorem c4_bad_gateway_response_witness :
    (handleMessage ⟨[], [], [], [], [], [], "localhost"⟩ 0 0
      ⟨Except.error [98, 111, 111, 109], Except.ok (), Except.ok ()⟩
      (IncomingMessage.tunnelRequest "r1" "t1" "GET" "/hi" "" [] none none none)).outgoing =
      [OutgoingMessage.tunnelResponse "r1" 502
        [("content-type", "text/plain")]
        (some (badGatewayBytes ++ [98, 111, 111, 109])) none] :=
  c4_bad_gateway_response ⟨[], [], [], [], [], [], "localhost"⟩ 0 0
    (Except.ok ()) (Except.ok ()) [98, 111, 111, 109]
    "r1" "t1" "GET" "/hi" "" [] none none none (by decide)

/-- C8: for every `tunnel_request` whose `tunnel_id` is not in the
registered-tunnels map, the request is forwarded to the configured local
host at port 3000, and a `tunnel_response` for that `request_id` is still
produced (whatever the forwarder result). -/
theorem c8_unknown_tunnel_fallback (st : ClientState) (reg tcpReg : Nat)
    (oracle : Oracle) (request_id tunnel_id method path query_string : String)
    (headers : List (List String)) (body : Option (List Nat))
    (body_encoding : Option String) (client_ip : Option String)
    (h : find_tunnel_port st tunnel_id = none) :
    (handleMessage st reg tcpReg oracle
      (IncomingMessage.tunnelRequest request_id tunnel_id method path query_string
        headers body body_encoding client_ip)).effects =
      [Effect.forwardHttp st.local_host 3000 method path query_string
        (headersToPairs headers) (decode_body body body_encoding)] ∧
    (handleMessage st reg tcpReg oracle
      (IncomingMessage.tunnelRequest request_id tunnel_id method path query_string
        headers body body_encoding client_ip)).outgoing =
      [tunnelRequestResponse request_id oracle.http] ∧
    requestIdOf (tunnelRequestResponse request_id oracle.http) = some request_id := by
  obtain ⟨http, ws, tcp⟩ := oracle
  refine ⟨by simp [handleMessage, h], by simp [handleMessage], ?_⟩
  cases http with
  | error e => simp [tunnelRequestResponse, tunnel_response, requestIdOf]
  | ok v =>
    obtain ⟨status, hdrs, bd⟩ := v
    simp [tunnelRequestResponse, tunnel_response, requestIdOf]

/-- C8 witness: empty tunnel map, concrete request. -/
theorem c8_unknown_tunnel_fallback_witness :
    (handleMessage ⟨[], [], [], [], [], [], "localhost"⟩ 0 0
      ⟨Except.ok (200, [], none), Except.ok (), Except.ok ()⟩
      (IncomingMessage.tunnelRequest "r1" "t9" "GET" "/hi" "" [] none none none)).effects =
      [Effect.forwardHttp "localhost" 3000 "GET" "/hi" "" (headersToPairs [])
        (decode_body none none)] :=
  (c8_unknown_tunnel_fallback ⟨[], [], [], [], [], [], "localhost"⟩ 0 0
    ⟨Except.ok (200, [], none), Except.ok (), Except.ok ()⟩
    "r1" "t9" "GET" "/hi" "" [] none none none rfl).1

/-- C9: for every inbound frame processed by the dispatcher, at most one
`tunnel_response` is enqueued toward the writer queue, and every
`tunnel_response` enqueued bears the `request_id` of the `tunnel_request`
being processed (no other frame kind enqueues any `tunnel_response`). -/
theorem c9_at_most_one_response (st : ClientState) (reg tcpReg : Nat)
    (oracle : Oracle) (msg : IncomingMessage) :
    ((handleMessage st reg tcpReg oracle msg).outgoing.filter
      (fun m => isTunnelResponse m)).length ≤ 1 ∧
    ∀ m ∈ (handleMessage st reg tcpReg oracle msg).outgoing,
      isTunnelResponse m = true → requestIdOf m = incomingRequestId msg := by
  obtain ⟨http, ws, tcp⟩ := oracle
  cases msg with
  | tunnelRequest request_id tunnel_id method path query_string headers body
      body_encoding client_ip =>
    constructor
    · cases http with
      | error e =>
        simp [handleMessage, tunnelRequestResponse, tunnel_response, isTunnelResponse]
      | ok v =>
        obtain ⟨status, hdrs, bd⟩ := v
        simp [handleMessage, tunnelRequestResponse, tunnel_response, isTunnelResponse]
    · intro m hm _
      cases http with
      | error e =>
        simp [handleMessage, tunnelRequestResponse, tunnel_response] at hm
        simp [hm, requestIdOf, incomingRequestId]
      | ok v =>
        obtain ⟨status, hdrs, bd⟩ := v
        simp [handleMessage, tunnelRequestResponse, tunnel_response] at hm
        simp [hm, requestIdOf, incomingRequestId]
  | wsUpgrade ws_id tunnel_id path headers =>
    cases ws with
    | error e => simp [handleMessage, isTunnelResponse]
    | ok u => simp [handleMessage, isTunnelResponse]
  | wsFrame ws_id opcode data data_encoding =>
    by_cases hmem : ws_id ∈ st.ws_proxies <;> simp [handleMessage, hmem]
  | wsClose ws_id code reason =>
    by_cases hmem : ws_id ∈ st.ws_proxies <;> simp [handleMessage, hmem]
  | tcpConnect tcp_id tcp_tunnel_id =>
    rcases hfind : find_tcp_tunnel st tcp_tunnel_id with _ | info
    · simp [handleMessage, hfind]
    · cases tcp with
      | error e =>
        simp [handleMessage, hfind, tcp_close, tcp_connected, isTunnelResponse]
      | ok u =>
        simp [handleMessage, hfind, tcp_close, tcp_connected, isTunnelResponse]
  | tcpData tcp_id data data_encoding =>
    by_cases hmem : tcp_id ∈ st.tcp_connections <;> simp [handleMessage, hmem]
  | tunnelRegistered tunnel_id subdomain full_url => simp [handleMessage]
  | tcpTunnelRegistered tcp_tunnel_id server_port local_port => simp [handleMessage]
  | tcpClose tcp_id reason => simp [handleMessage]
  | heartbeat timestamp => simp [handleMessage]
  | error code message => simp [handleMessage]

/-- C9 witness: the single response for a concrete request bears its id. -/
theorem c9_at_most_one_response_witness :
    requestIdOf (tunnelRequestResponse "r1" (Except.error [120])) =
      incomingRequestId (IncomingMessage.tunnelRequest "r1" "t1" "GET" "/" ""
        [] none none none) :=
  (c9_at_most_one_response ⟨[], [], [], [], [], [], "localhost"⟩ 0 0
    ⟨Except.error [120], Except.ok (), Except.ok ()⟩
    (IncomingMessage.tunnelRequest "r1" "t1" "GET" "/" "" [] none none none)).2
    (tunnelRequestResponse "r1" (Except.error [120]))
    (by simp [handleMessage]) (by rfl)

/-- C10: if a `tunnel_registered` confirmation arrives when the count of
confirmations already seen is at least the length of the
pending-registrations vector, the client records a `TunnelInfo` with
`local_port` 0 (and the configured local host) under that `tunnel_id`, and
a subsequent `tunnel_request` for that `tunnel_id` is forwarded to port 0
rather than taking the unknown-tunnel fallback to port 3000. -/
theorem c10_overflow_confirmation (st : ClientState) (reg tcpReg : Nat)
    (oracle oracle2 : Oracle) (tunnel_id subdomain full_url : String)
    (request_id method path query_string : String)
    (headers : List (List String)) (body : Option (List Nat))
    (body_encoding : Option String) (client_ip : Option String)
    (h : st.pending_tunnels.length ≤ reg) :
    alistLookup (handleMessage st reg tcpReg oracle
        (IncomingMessage.tunnelRegistered tunnel_id subdomain full_url)).state.tunnels
        tunnel_id = some ⟨full_url, st.local_host, 0⟩ ∧
    (handleMessage (handleMessage st reg tcpReg oracle
        (IncomingMessage.tunnelRegistered tunnel_id subdomain full_url)).state
      (reg + 1) tcpReg oracle2
      (IncomingMessage.tunnelRequest request_id tunnel_id method path query_string
        headers body body_encoding client_ip)).effects =
      [Effect.forwardHttp st.local_host 0 method path query_string
        (headersToPairs headers) (decode_body body body_encoding)] := by
  have hget : st.pending_tunnels[reg]? = none := List.getElem?_eq_none h
  constructor
  · simp [handleMessage, hget, alistLookup, alistInsert, List.find?]
  · simp [handleMessage, hget, find_tunnel_port, alistLookup, alistInsert, List.find?]

/-- C10 witness: empty pending vector, zero confirmations seen. -/
theorem c10_overflow_confirmation_witness :
    (handleMessage (handleMessage ⟨[], [], [], [], [], [], "localhost"⟩ 0 0
        ⟨Except.ok (200, [], none), Except.ok (), Except.ok ()⟩
        (IncomingMessage.tunnelRegistered "t1" "sub" "https://sub.example")).state
      1 0 ⟨Except.ok (200, [], none), Except.ok (), Except.ok ()⟩
      (IncomingMessage.tunnelRequest "r1" "t1" "GET" "/" "" [] none none none)).effects =
      [Effect.forwardHttp "localhost" 0 "GET" "/" "" (headersToPairs [])
        (decode_body none none)] :=
  (c10_overflow_confirmation ⟨[], [], [], [], [], [], "localhost"⟩ 0 0
    ⟨Except.ok (200, [], none), Except.ok (), Except.ok ()⟩
    ⟨Except.ok (200, [], none), Except.ok (), Except.ok ()⟩
    "t1" "sub" "https://sub.example" "r1" "GET" "/" "" [] none none none
    (Nat.le_refl 0)).2

/-- C6 counterexample: the claim says the local WebSocket is closed
using the given code and reason.  For the concrete frame
`ws_close(ws_id w1, code 4001, reason bye)` on a state that knows `w1`,
the dispatcher does invoke `close(4001, bye)`, but `WebSocketProxy::close`
enqueues the fixed command `(close, [])` toward the local socket — the
same command as for `close(1000, empty)` — so the local close carries
neither the given code nor the given reason. -/
theorem c6_counterexample :
    (handleMessage ⟨[], [], [], [], [], ["w1"], "localhost"⟩ 0 0
        ⟨Except.ok (200, [], none), Except.ok (), Except.ok ()⟩
        (IncomingMessage.wsClose "w1" (some 4001) (some "bye"))).effects =
      [Effect.closeProxy "w1" 4001 "bye"] ∧
    wsProxyClose 4001 "bye" = ("close", []) ∧
    wsProxyClose 4001 "bye" = wsProxyClose 1000 "" := by
  refine ⟨?_, rfl, rfl⟩
  simp [handleMessage]

/-- C6 amended: when the dispatcher receives `ws_close` for a known
`ws_id`, it removes the proxy from the flow map and invokes the proxy's
close method with the given code and reason (code defaulting to 1000 and
reason to the empty string when absent); the close method, however,
ignores these arguments and enqueues a bare `(close, [])` command, so the
local WebSocket is closed with a close frame carrying no code or reason. -/
theorem c6_ws_close_amended (st : ClientState) (reg tcpReg : Nat) (oracle : Oracle)
    (ws_id : String) (code : Option Nat) (reason : Option String)
    (hmem : ws_id ∈ st.ws_proxies) :
    (handleMessage st reg tcpReg oracle
        (IncomingMessage.wsClose ws_id code reason)).state.ws_proxies =
      st.ws_proxies.erase ws_id ∧
    (handleMessage st reg tcpReg oracle
        (IncomingMessage.wsClose ws_id code reason)).effects =
      [Effect.closeProxy ws_id (code.getD 1000) (reason.getD "")] ∧
    (∀ c rsn, wsProxyClose c rsn = ("close", [])) := by
  refine ⟨?_, ?_, fun c rsn => rfl⟩ <;> simp [handleMessage, hmem]

/-- C6 witness: concrete known flow, absent code and reason default to
1000 and the empty string. -/
theorem c6_ws_close_amended_witness :
    (handleMessage ⟨[], [], [], [], [], ["w1"], "localhost"⟩ 0 0
        ⟨Except.ok (200, [], none), Except.ok (), Except.ok ()⟩
        (IncomingMessage.wsClose "w1" none none)).effects =
      [Effect.closeProxy "w1" 1000 ""] :=
  (c6_ws_close_amended ⟨[], [], [], [], [], ["w1"], "localhost"⟩ 0 0
    ⟨Except.ok (200, [], none), Except.ok (), Except.ok ()⟩
    "w1" none none (by decide)).2.1

/-- Every sleep `run` performs lies on the pure backoff sequence,
whatever the attempt results were: starting from backoff value
`backoffs k`, the i-th sleep recorded is `backoffs (k + i)`. -/
theorem runAux_sleeps_backoffs :
    ∀ (rs : List AttemptResult) (a k i : Nat) (le : Option String) (x : Nat),
      (runAux a (backoffs k) le rs).sleeps[i]? = some x → x = backoffs (k + i) := by
  intro rs
  induction rs with
  | nil =>
    intro a k i le x hx
    simp [runAux] at hx
  | cons r rest ih =>
    intro a k i le x hx
    cases r with
    | ok => simp [runAux] at hx
    | err est reason =>
      by_cases hA : a + 1 ≥ MAX_RECONNECT_ATTEMPTS
      · simp [runAux, hA] at hx
      · simp only [runAux, hA, if_false, ite_false] at hx
        cases i with
        | zero =>
          simp only [List.getElem?_cons_zero, Option.some.injEq] at hx
          rw [Nat.add_zero]
          exact hx.symm
        | succ j =>
          simp only [List.getElem?_cons_succ] at hx
          have hnext : nextBackoff (backoffs k) = backoffs (k + 1) := rfl
          rw [hnext] at hx
          have hres := ih (a + 1) (k + 1) j (some reason) x hx
          rw [show k + (j + 1) = k + 1 + j from by omega]
          exact hres

/-- C3 counterexample: attempt 1 fails to connect, attempt 2 establishes
a connection and then loses it, attempt 3 fails.  The claim says the
sleep after attempt 2 starts again at 1000 ms; the code sleeps 1500 ms.
`run` cannot even observe establishment: the outcome is identical to the
script where no attempt established a connection. -/
theorem c3_counterexample :
    (runModel [AttemptResult.err false "dial failed",
      AttemptResult.err true "connection lost",
      AttemptResult.err false "dial failed"]).sleeps = [1000, 1500, 2250] ∧
    (runModel [AttemptResult.err false "dial failed",
        AttemptResult.err true "connection lost",
        AttemptResult.err false "dial failed"]).sleeps[1]? = some 1500 ∧
    (1500 : Nat) ≠ 1000 ∧
    runModel [AttemptResult.err false "dial failed",
        AttemptResult.err true "connection lost",
        AttemptResult.err false "dial failed"] =
      runModel [AttemptResult.err false "dial failed",
        AttemptResult.err false "connection lost",
        AttemptResult.err false "dial failed"] := by
  exact ⟨rfl, rfl, by decide, rfl⟩

/-- C3 amended: the reconnect backoff is never reset.  Whatever the
attempt outcomes — including attempts that established a connection
before failing — the i-th sleep `run` performs is always `backoffs i`,
the pure growth sequence 1000, 1500, 2250, … capped at 60000; the backoff
variable is reinitialized only when `run` itself is restarted. -/
theorem c3_no_backoff_reset (rs : List AttemptResult) (i x : Nat)
    (h : (runModel rs).sleeps[i]? = some x) : x = backoffs i := by
  have := runAux_sleeps_backoffs rs 0 0 i none x h
  simpa using this

/-- C3 amended witness: the second sleep after a mid-script established
connection is backoffs 1 = 1500. -/
theorem c3_no_backoff_reset_witness :
    (1500 : Nat) = backoffs 1 :=
  c3_no_backoff_reset [AttemptResult.err false "a", AttemptResult.err true "b",
    AttemptResult.err false "c"] 1 1500 rfl

/-- C5: with ten consecutive failed attempts, the sleeps before reconnect
attempts 2..10 are exactly 1000, 1500, 2250, 3375, 5062, 7593, 11389,
17083, 25624 ms — satisfying t1 = 1000 and
t(k+1) = min(60000, floor(1.5 * tk)) (the float update is exact and
truncating, equal to 3*t/2 in natural division) — and after the 10th
failure run emits Disconnected with reason `Failed after 10 attempts: ...`
and returns the last error (the process exits non-zero). -/
theorem c5_backoff_sequence_and_exhaustion (reasons : Nat → String) (flags : Nat → Bool) :
    (runModel ((List.range 10).map (fun i =>
        AttemptResult.err (flags i) (reasons i)))).sleeps =
      [1000, 1500, 2250, 3375, 5062, 7593, 11389, 17083, 25624] ∧
    (∀ k < 8, ([1000, 1500, 2250, 3375, 5062, 7593, 11389, 17083, 25624] :
        List Nat)[k + 1]? =
      some (min 60000 (3 * (([1000, 1500, 2250, 3375, 5062, 7593, 11389, 17083,
        25624] : List Nat)[k]?.getD 0) / 2))) ∧
    (runModel ((List.range 10).map (fun i =>
        AttemptResult.err (flags i) (reasons i)))).statuses.getLast? =
      some (ConnectionStatus.disconnected
        ("Failed after " ++ toString 10 ++ " attempts: " ++ reasons 9)) ∧
    (runModel ((List.range 10).map (fun i =>
        AttemptResult.err (flags i) (reasons i)))).result =
      some (Except.error (reasons 9)) := by
  exact ⟨rfl, by decide, rfl, rfl⟩

/-- C5 witness: all ten attempts fail with the same reason. -/
theorem c5_backoff_sequence_and_exhaustion_witness :
    (runModel ((List.range 10).map (fun _ =>
        AttemptResult.err false "dial failed"))).result =
      some (Except.error "dial failed") :=
  (c5_backoff_sequence_and_exhaustion (fun _ => "dial failed") (fun _ => false)).2.2.2

/-- Inserting a fresh name into a header map appends it. -/
theorem headerMapInsert_append (m : List (String × String)) (k v : String)
    (h : ∀ p ∈ m, p.1 ≠ k) : headerMapInsert m k v = m ++ [(k, v)] := by
  have hany : m.any (fun p => p.1 == k) = false := by
    rw [List.any_eq_false]
    intro p hp
    simpa using h p hp
  simp [headerMapInsert, hany]

/-- The request-header loop on all-valid, duplicate-free headers produces
exactly the non-skipped headers, names lowercased, appended to the
accumulator. -/
theorem requestHeaderMapAux_spec :
    ∀ (hs m : List (String × String)),
      (∀ p ∈ hs, validHeaderName p.1 = true) →
      (∀ p ∈ hs, validHeaderValue p.2 = true) →
      (∀ p ∈ hs, ∀ q ∈ m, lowerAscii p.1 ≠ q.1) →
      hs.Pairwise (fun p q => lowerAscii p.1 ≠ lowerAscii q.1) →
      requestHeaderMapAux m hs =
        m ++ (hs.filter (fun p => !requestSkip p.1)).map (fun p => (lowerAscii p.1, p.2))
  | [], m, _, _, _, _ => by simp [requestHeaderMapAux]
  | (n, v) :: rest, m, hn, hv, hdisj, hpw => by
    rw [List.pairwise_cons] at hpw
    by_cases hskip : requestSkip n
    · rw [requestHeaderMapAux, if_pos hskip]
      rw [requestHeaderMapAux_spec rest m (fun p hp => hn p (by simp [hp]))
        (fun p hp => hv p (by simp [hp]))
        (fun p hp q hq => hdisj p (by simp [hp]) q hq) hpw.2]
      simp [List.filter_cons, hskip]
    · have hnv : validHeaderName n = true := hn (n, v) (by simp)
      have hvv : validHeaderValue v = true := hv (n, v) (by simp)
      rw [requestHeaderMapAux, if_neg hskip, if_pos (by simp [hnv, hvv])]
      rw [headerMapInsert_append m (lowerAscii n) v
        (fun q hq => Ne.symm (hdisj (n, v) (by simp) q hq))]
      rw [requestHeaderMapAux_spec rest (m ++ [(lowerAscii n, v)])
        (fun p hp => hn p (by simp [hp])) (fun p hp => hv p (by simp [hp]))
        (fun p hp q hq => by
          rcases List.mem_append.mp hq with hq | hq
          · exact hdisj p (by simp [hp]) q hq
          · have : q = (lowerAscii n, v) := by simpa using hq
            rw [this]
            exact Ne.symm (hpw.1 p hp))
        hpw.2]
      simp [List.filter_cons, hskip, List.append_assoc]

/-- The response-header filter on all-visible values is the plain
hop-by-hop filter. -/
theorem responseHeaderFilter_spec :
    ∀ hs : List (String × String), (∀ p ∈ hs, visibleAsciiValue p.2 = true) →
      responseHeaderFilter hs = hs.filter (fun p => !responseSkip p.1)
  | [], _ => rfl
  | (n, v) :: rest, h => by
    have hvis : visibleAsciiValue v = true := h (n, v) (by simp)
    have ih := responseHeaderFilter_spec rest (fun p hp => h p (by simp [hp]))
    by_cases hskip : responseSkip n
    · simpa [responseHeaderFilter, List.filterMap_cons, List.filter_cons, hskip]
        using ih
    · simpa [responseHeaderFilter, List.filterMap_cons, List.filter_cons, hskip, hvis]
        using ih

/-- C7: `forward_http_request` removes the headers connection, keep-alive,
proxy-authenticate, proxy-authorization, te, trailers, transfer-encoding
and upgrade (compared case-insensitively on the lowercased name) from both
the forwarded request headers and the returned response headers, and
additionally removes host from the request; headers not in this set are
passed through (request names case-normalized by `HeaderName`), provided
the passed-through request headers are well-formed with distinct
lowercased names and the response values are visible ASCII. -/
theorem c7_hop_by_hop_stripping (reqHeaders respHeaders : List (String × String))
    (hname : ∀ p ∈ reqHeaders, validHeaderName p.1 = true)
    (hvalue : ∀ p ∈ reqHeaders, validHeaderValue p.2 = true)
    (hdistinct : reqHeaders.Pairwise (fun p q => lowerAscii p.1 ≠ lowerAscii q.1))
    (hresp : ∀ p ∈ respHeaders, visibleAsciiValue p.2 = true) :
    buildRequestHeaderMap reqHeaders =
      (reqHeaders.filter (fun p => !requestSkip p.1)).map
        (fun p => (lowerAscii p.1, p.2)) ∧
    responseHeaderFilter respHeaders =
      respHeaders.filter (fun p => !responseSkip p.1) := by
  constructor
  · have h := requestHeaderMapAux_spec reqHeaders [] hname hvalue
      (fun p _ q hq => absurd hq (List.not_mem_nil q)) hdistinct
    simpa [buildRequestHeaderMap] using h
  · exact responseHeaderFilter_spec respHeaders hresp

/-- C7 witness: concrete request and response header lists; the skipped
sets and the pass-through are evaluated. -/
theorem c7_hop_by_hop_stripping_witness :
    buildRequestHeaderMap
      [("Connection", "close"), ("Host", "example.com"), ("X-Custom", "1")] =
      [("x-custom", "1")] ∧
    responseHeaderFilter
      [("content-type", "text/plain"), ("transfer-encoding", "chunked")] =
      [("content-type", "text/plain")] := by
  have h := c7_hop_by_hop_stripping
    [("Connection", "close"), ("Host", "example.com"), ("X-Custom", "1")]
    [("content-type", "text/plain"), ("transfer-encoding", "chunked")]
    (by decide) (by decide) (by decide) (by decide)
  exact ⟨h.1.trans (by decide), h.2.trans (by decide)⟩
